import Mathlib

/-!
# EzyMetrics dashboard (`src/App.jsx`): view state and report generation

A shallow embedding of the `Dashboard` component: its six `useState` cells as a
record, its event handlers as functions on that record, the body of
`generateReport` as a computation that may throw, and the `useEffect` that
registers the outside-click listeners as operations on a listener registry.

JavaScript strings are sequences of UTF-16 code units; the host functions the
component calls (`Date`, `toUpperCase` outside ASCII, the DOM) are fields of a
`Platform` record, so every theorem holds for every host.
-/

namespace EzyMetrics

/-! ## JavaScript strings -/

/-- A JavaScript string value: its sequence of UTF-16 code units. -/
abbrev JSString := List Nat

/-- UTF-16 encoding of one code point. -/
def encodeCodePoint (cp : Nat) : JSString :=
  if cp < 0x10000 then [cp]
  else [0xD800 + (cp - 0x10000) / 0x400, 0xDC00 + (cp - 0x10000) % 0x400]

/-- The JavaScript string written by a source literal. -/
def js (s : String) : JSString :=
  s.toList.flatMap fun c => encodeCodePoint c.toNat

/-- Leading (high) surrogate code unit. -/
def isLeadSurrogate (u : Nat) : Bool := 0xD800 ≤ u && u ≤ 0xDBFF

/-- Trailing (low) surrogate code unit. -/
def isTrailSurrogate (u : Nat) : Bool := 0xDC00 ≤ u && u ≤ 0xDFFF

/-- `StringToCodePoints`: a surrogate pair is one code point, every other code
unit (a lone surrogate too) is a code point of its own. -/
def toCodePoints : JSString → List Nat
  | [] => []
  | [u] => [u]
  | hi :: lo :: rest =>
    if isLeadSurrogate hi && isTrailSurrogate lo then
      (0x10000 + (hi - 0xD800) * 0x400 + (lo - 0xDC00)) :: toCodePoints rest
    else hi :: toCodePoints (lo :: rest)

/-- Upper-case mapping of one code point. ASCII letters are mapped here; the
mapping of every other code point is the host's Unicode table `tbl`. -/
def upperCodePoint (tbl : Nat → List Nat) (cp : Nat) : List Nat :=
  if cp < 128 then
    if 97 ≤ cp ∧ cp ≤ 122 then [cp - 32] else [cp]
  else tbl cp

/-- `String.prototype.toUpperCase()`. -/
def toUpperCase (tbl : Nat → List Nat) (s : JSString) : JSString :=
  (toCodePoints s).flatMap fun cp => (upperCodePoint tbl cp).flatMap encodeCodePoint

/-- `String.prototype.charAt(pos)`: the one-unit string at `pos`, or `""`. -/
def charAt (s : JSString) (pos : Nat) : JSString :=
  match s.get? pos with
  | some u => [u]
  | none => []

/-- `String.prototype.slice(start)` for a non-negative `start`. -/
def slice (s : JSString) (start : Nat) : JSString := s.drop start

/-- Scanner of `split`: `cur` is the piece being read (reversed), `skip` the
number of code units of a matched separator still to pass over. -/
def splitAux (sep : JSString) : JSString → JSString → Nat → List JSString
  | [], cur, _ => [cur.reverse]
  | _ :: cs, cur, skip + 1 => splitAux sep cs cur skip
  | c :: cs, cur, 0 =>
    if sep.isPrefixOf (c :: cs) then
      cur.reverse :: splitAux sep cs [] (sep.length - 1)
    else splitAux sep cs (c :: cur) 0

/-- `String.prototype.split(sep)` for a non-empty separator string. -/
def split (s sep : JSString) : List JSString := splitAux sep s [] 0

/-- Element `[0]` of an array of strings as a template literal renders it. -/
def first (parts : List JSString) : JSString :=
  match parts with
  | p :: _ => p
  | [] => js "undefined"

/-! ## Sample data (`App.jsx` lines 25-55) -/

/-- One entry of `performanceData`. -/
structure PerformanceSample where
  name : JSString
  leads : Nat
  conversions : Nat
  deriving DecidableEq, Repr

/-- One entry of `leadsData`. -/
structure Lead where
  id : Nat
  name : JSString
  email : JSString
  status : JSString
  value : JSString
  deriving DecidableEq, Repr

def performanceData : List PerformanceSample :=
  [ { name := js "Jan", leads := 400, conversions := 240 },
    { name := js "Feb", leads := 300, conversions := 139 },
    { name := js "Mar", leads := 200, conversions := 980 },
    { name := js "Apr", leads := 278, conversions := 390 },
    { name := js "May", leads := 189, conversions := 480 } ]

def leadsData : List Lead :=
  [ { id := 1, name := js "John Doe", email := js "john@example.com",
      status := js "New", value := js "$1,200" },
    { id := 2, name := js "Jane Smith", email := js "jane@example.com",
      status := js "Contacted", value := js "$3,400" },
    { id := 3, name := js "Mike Johnson", email := js "mike@example.com",
      status := js "Qualified", value := js "$2,800" } ]

/-- The value of the `data` property: one of the two module-level arrays. -/
inductive ReportRows where
  | performance (rows : List PerformanceSample)
  | leads (rows : List Lead)
  deriving DecidableEq, Repr

/-- The object literal `reportData` (lines 90-97). -/
structure ReportArtifact where
  title : JSString
  period : JSString
  date : JSString
  data : ReportRows
  deriving DecidableEq, Repr

/-- Title template literal of lines 91-93. -/
def reportTitle (tbl : Nat → List Nat) (reportType : JSString) : JSString :=
  js "EzyMetrics " ++ (toUpperCase tbl (charAt reportType 0) ++ slice reportType 1) ++ js " Report"

/-- The conditional of line 96. -/
def reportRows (reportType : JSString) : ReportRows :=
  if reportType = js "performance" then .performance performanceData else .leads leadsData

/-- Template literal of lines 107-109, given the text of `toISOString()`. -/
def downloadName (reportType iso : JSString) : JSString :=
  js "ezymetrics-" ++ reportType ++ js "-report-" ++ first (split iso (js "T")) ++ js ".pdf"

/-! ## View state (`App.jsx` lines 58-63) -/

/-- The six `useState` cells of `Dashboard`. -/
structure ViewState where
  isMobileMenuOpen : Bool
  activeSection : JSString
  showReportModal : Bool
  reportType : JSString
  reportPeriod : JSString
  isGeneratingReport : Bool
  deriving DecidableEq, Repr

/-- The initial values passed to `useState`. -/
def initialState : ViewState :=
  { isMobileMenuOpen := false
    activeSection := js "dashboard"
    showReportModal := false
    reportType := js "performance"
    reportPeriod := js "month"
    isGeneratingReport := false }

/-- The setter `setIsMobileMenuOpen`. -/
def ViewState.setIsMobileMenuOpen (s : ViewState) (b : Bool) : ViewState :=
  { s with isMobileMenuOpen := b }

/-- The setter `setActiveSection`. -/
def ViewState.setActiveSection (s : ViewState) (id : JSString) : ViewState :=
  { s with activeSection := id }

/-- The setter `setShowReportModal`. -/
def ViewState.setShowReportModal (s : ViewState) (b : Bool) : ViewState :=
  { s with showReportModal := b }

/-- The setter `setReportType`. -/
def ViewState.setReportType (s : ViewState) (v : JSString) : ViewState :=
  { s with reportType := v }

/-- The setter `setReportPeriod`. -/
def ViewState.setReportPeriod (s : ViewState) (v : JSString) : ViewState :=
  { s with reportPeriod := v }

/-- The setter `setIsGeneratingReport`. -/
def ViewState.setIsGeneratingReport (s : ViewState) (b : Bool) : ViewState :=
  { s with isGeneratingReport := b }

/-! ## Host environment of `generateReport` -/

/-- A thrown JavaScript exception value. -/
structure JSError where
  message : JSString
  deriving DecidableEq, Repr

/-- The host calls of the `try` block that touch the DOM, in source order
(lines 99-114). -/
inductive HostStep where
  | stringify
  | newBlob
  | createObjectURL
  | createElement
  | setHref
  | setAttribute
  | appendChild
  | click
  | remove
  | revokeObjectURL
  deriving DecidableEq, Repr

/-- What the browser provides to one call of `generateReport`. -/
structure Platform where
  /-- Unicode upper-case mapping of the non-ASCII code points. -/
  upperTable : Nat → List Nat
  /-- Time value of the `k`-th `new Date()` evaluated by the call. -/
  now : Nat → Int
  /-- `Date.prototype.toLocaleDateString()` in the user's locale. -/
  toLocaleDateString : Int → Except JSError JSString
  /-- `Date.prototype.toISOString()`. -/
  toISOString : Int → Except JSError JSString
  /-- Text of `JSON.stringify(reportData, null, 2)`. -/
  stringify : ReportArtifact → JSString
  /-- URL handed out by `createObjectURL`. -/
  objectURL : JSString
  /-- The exception a host call throws, if it throws. -/
  throwsAt : HostStep → Option JSError

/-- The `Blob` of lines 99-101. -/
structure Blob where
  text : JSString
  type : JSString
  deriving DecidableEq, Repr

/-- A save started by `link.click()` on the anchor of lines 103-110. -/
structure Download where
  href : JSString
  filename : JSString
  blob : Blob
  deriving DecidableEq, Repr

/-- Everything a call of `generateReport` reads or writes. -/
structure World where
  view : ViewState
  /-- The states written by the `useState` setters, oldest first. -/
  trace : List ViewState
  /-- Arguments of the `console.error` calls, oldest first. -/
  console : List (JSString × JSError)
  /-- The saves started so far, oldest first. -/
  saved : List Download
  deriving DecidableEq, Repr

/-- A setter call: the new state replaces the old one and is recorded. -/
def World.write (w : World) (v : ViewState) : World :=
  { w with view := v, trace := w.trace ++ [v] }

/-- Code that may throw. -/
abbrev Host := ExceptT JSError (StateM World)

def setIsGeneratingReport (b : Bool) : StateM World Unit :=
  modify fun w => w.write (w.view.setIsGeneratingReport b)

def setShowReportModal (b : Bool) : StateM World Unit :=
  modify fun w => w.write (w.view.setShowReportModal b)

def consoleError (label : JSString) (error : JSError) : StateM World Unit :=
  modify fun w => { w with console := w.console ++ [(label, error)] }

def startSave (d : Download) : StateM World Unit :=
  modify fun w => { w with saved := w.saved ++ [d] }

/-- A host call that returns nothing of interest but may throw. -/
def hostStep (P : Platform) (st : HostStep) : Host Unit :=
  match P.throwsAt st with
  | some e => throw e
  | none => pure ()

/-- A host call that returns a value or throws. -/
def hostValue {α : Type} (r : Except JSError α) : Host α :=
  match r with
  | .ok a => pure a
  | .error e => throw e

/-- The object literal of lines 90-97, given the text of `toLocaleDateString()`. -/
def reportData (tbl : Nat → List Nat) (reportType reportPeriod date : JSString) : ReportArtifact :=
  { title := reportTitle tbl reportType
    period := reportPeriod
    date := date
    data := reportRows reportType }

/-- What `link.click()` saves: the object URL, the `download` attribute and
the blob (lines 99-110). -/
def savedFile (P : Platform) (reportType reportPeriod date iso : JSString) : Download :=
  { href := P.objectURL
    filename := downloadName reportType iso
    blob :=
      { text := P.stringify (reportData P.upperTable reportType reportPeriod date)
        type := js "application/pdf" } }

/-- The `try` block of `generateReport` (lines 90-115); `reportType` and
`reportPeriod` are the values the handler closed over. -/
def tryBlock (P : Platform) (reportType reportPeriod : JSString) : Host Unit := do
  let date ← hostValue (P.toLocaleDateString (P.now 0))
  let reportData := reportData P.upperTable reportType reportPeriod date
  hostStep P .stringify
  hostStep P .newBlob
  let blob : Blob := { text := P.stringify reportData, type := js "application/pdf" }
  hostStep P .createObjectURL
  let url := P.objectURL
  hostStep P .createElement
  hostStep P .setHref
  let iso ← hostValue (P.toISOString (P.now 1))
  let name := downloadName reportType iso
  hostStep P .setAttribute
  hostStep P .appendChild
  hostStep P .click
  startSave { href := url, filename := name, blob := blob }
  hostStep P .remove
  hostStep P .revokeObjectURL
  setShowReportModal false

/-- The handler `generateReport` (lines 87-121). It has no `await`, so it runs
to completion within the click that calls it. -/
def generateReport (P : Platform) : StateM World Unit := do
  let props := (← get).view
  setIsGeneratingReport true
  match ← (tryBlock P props.reportType props.reportPeriod).run with
  | .ok () => pure ()
  | .error error => consoleError (js "Error generating report:") error
  setIsGeneratingReport false

/-- The world in which a handler starts when the rendered state is `s`. -/
def World.start (s : ViewState) : World :=
  { view := s, trace := [], console := [], saved := [] }

/-- The world after `generateReport` ran from the rendered state `s`. -/
def runGenerateReport (P : Platform) (s : ViewState) : World :=
  (generateReport P (World.start s)).2

/-! ## Outside-click handler (lines 66-76) -/

/-- A DOM element, as far as the handler inspects it. -/
structure Element where
  /-- Identity of the node. -/
  node : Nat
  /-- Lower-case tag name. -/
  tag : JSString
  ariaLabel : Option JSString
  deriving DecidableEq, Repr

/-- The node `event.target`: an element, or a node of another kind (the
document itself, a text node), which has no `closest` method. -/
inductive TargetNode where
  | element (e : Element)
  | other (node : Nat)
  deriving DecidableEq, Repr

/-- The node `event.target` together with its element ancestors, nearest first. -/
structure EventTarget where
  target : TargetNode
  ancestors : List Element
  deriving DecidableEq, Repr

/-- The elements among the target and its ancestors, nearest first. -/
def EventTarget.inclusiveAncestors (t : EventTarget) : List Element :=
  match t.target with
  | .element e => e :: t.ancestors
  | .other _ => t.ancestors

/-- `aside.contains(event.target)`: the target is `aside` or a descendant of it. -/
def contains (aside : Element) (t : EventTarget) : Bool :=
  t.inclusiveAncestors.any fun e => e.node == aside.node

/-- The selector `button[aria-label="Toggle mobile menu"]`. -/
def matchesToggleSelector (e : Element) : Bool :=
  e.tag == js "button" && e.ariaLabel == some (js "Toggle mobile menu")

/-- `event.target.closest(selector)`: on an element, the nearest inclusive
ancestor matching the selector, `null` when there is none; on a node that is
not an element the call throws a `TypeError`. -/
def closest (t : EventTarget) : Except JSError (Option Element) :=
  match t.target with
  | .element e => .ok ((e :: t.ancestors).find? matchesToggleSelector)
  | .other _ => .error { message := js "event.target.closest is not a function" }

/-- The listener `handleClickOutside`; `asideRef` is `asideRef.current`. The
operands of `&&` are evaluated left to right, each only when those before it
are truthy. -/
def handleClickOutside (asideRef : Option Element) (t : EventTarget) (s : ViewState) :
    Except JSError ViewState :=
  if s.isMobileMenuOpen then
    match asideRef with
    | none => .ok s
    | some aside =>
      if contains aside t then .ok s
      else
        match closest t with
        | .error e => .error e
        | .ok (some _) => .ok s
        | .ok none => .ok (s.setIsMobileMenuOpen false)
  else .ok s

/-- The rendered state after the listener ran on a pointer event: when the
listener throws, no setter has been called. -/
def afterPointerDown (asideRef : Option Element) (t : EventTarget) (s : ViewState) : ViewState :=
  match handleClickOutside asideRef t s with
  | .ok s2 => s2
  | .error _ => s

/-! ## Click handlers of the rendered tree -/

/-- Handler of the toggle button (line 215). -/
def toggleMobileMenu (s : ViewState) : ViewState :=
  s.setIsMobileMenuOpen (!s.isMobileMenuOpen)

/-- The modal's `onClose`, wired to its X button (lines 157, 296). -/
def modalOnClose (s : ViewState) : ViewState :=
  s.setShowReportModal false

/-- Handler of the Cancel button (line 334). -/
def cancelOnClick (s : ViewState) : ViewState :=
  s.setShowReportModal false

/-- Props of a `SidebarLink` (line 123), the icon left out. -/
structure SidebarLinkProps where
  text : JSString
  id : JSString
  onClick : Option (ViewState → ViewState)

/-- The button handler of `SidebarLink`: `onClick || (() => setActiveSection(id))`. -/
def SidebarLinkProps.click (p : SidebarLinkProps) (s : ViewState) : ViewState :=
  match p.onClick with
  | some h => h s
  | none => s.setActiveSection p.id

/-- The four links of the `nav` element (lines 187-201). -/
def navLinks : List SidebarLinkProps :=
  [ { text := js "Dashboard", id := js "dashboard", onClick := none },
    { text := js "Leads", id := js "leads", onClick := none },
    { text := js "Analytics", id := js "analytics", onClick := none },
    { text := js "Reports", id := js "reports",
      onClick := some fun s => s.setShowReportModal true } ]

/-- Selecting a section: a click on the navigation link carrying that id. -/
def selectSection (id : JSString) (s : ViewState) : ViewState :=
  match navLinks.find? fun p => p.id == id with
  | some p => p.click s
  | none => s

/-- The user and document events the component reacts to. -/
inductive Event where
  | toggle
  | pointerDown (asideRef : Option Element) (t : EventTarget)
  | navLink (i : Fin 4)
  | closeX
  | cancel
  | changeReportType (v : JSString)
  | changeReportPeriod (v : JSString)
  | download (P : Platform)

/-- The rendered state after an event. -/
def Event.apply (s : ViewState) : Event → ViewState
  | .toggle => toggleMobileMenu s
  | .pointerDown asideRef t => afterPointerDown asideRef t s
  | .navLink i => (navLinks.get ⟨i.1, i.2⟩).click s
  | .closeX => modalOnClose s
  | .cancel => cancelOnClick s
  | .changeReportType v => s.setReportType v
  | .changeReportPeriod v => s.setReportPeriod v
  | .download P => (runGenerateReport P s).view

/-- The states the component can be in: the initial one and those any
sequence of events leads to. -/
inductive Reachable : ViewState → Prop where
  | init : Reachable initialState
  | step {s : ViewState} (e : Event) : Reachable s → Reachable (e.apply s)

/-! ## Listener registration (`useEffect`, lines 66-85) -/

/-- Identity of a listener function. -/
inductive Handler where
  /-- A function registered by other code. -/
  | foreign (n : Nat)
  /-- The closure `handleClickOutside` created by the `run`-th execution of
  the effect. -/
  | handleClickOutside (run : Nat)
  deriving DecidableEq, Repr

/-- One entry of the document's event listener list. -/
structure Listener where
  type : JSString
  callback : Handler
  deriving DecidableEq, Repr

/-- The event listener list of `document`. -/
abbrev Registry := List Listener

/-- `document.addEventListener(type, callback)`: an entry already present is
not added again. -/
def addEventListener (type : JSString) (callback : Handler) (r : Registry) : Registry :=
  if ({ type := type, callback := callback } : Listener) ∈ r then r
  else r ++ [{ type := type, callback := callback }]

/-- `document.removeEventListener(type, callback)`. -/
def removeEventListener (type : JSString) (callback : Handler) (r : Registry) : Registry :=
  r.erase { type := type, callback := callback }

/-- Body of the effect for its `run`-th execution (lines 78-79). -/
def effect (run : Nat) (r : Registry) : Registry :=
  addEventListener (js "touchstart") (.handleClickOutside run)
    (addEventListener (js "mousedown") (.handleClickOutside run) r)

/-- The cleanup returned by the `run`-th execution (lines 81-84). -/
def cleanup (run : Nat) (r : Registry) : Registry :=
  removeEventListener (js "touchstart") (.handleClickOutside run)
    (removeEventListener (js "mousedown") (.handleClickOutside run) r)

/-- A mounted component: the document's listeners and the effect execution
whose cleanup is pending. -/
structure Mounted where
  registry : Registry
  run : Nat
  deriving DecidableEq, Repr

/-- Mount: the effect runs for the first time. -/
def mount (r : Registry) : Mounted :=
  { registry := effect 0 r, run := 0 }

/-- A change of `isMobileMenuOpen`: the pending cleanup runs, then the effect
runs again with a new closure. -/
def rerun (m : Mounted) : Mounted :=
  { registry := effect (m.run + 1) (cleanup m.run m.registry), run := m.run + 1 }

/-- Unmount: the pending cleanup runs. -/
def unmount (m : Mounted) : Registry :=
  cleanup m.run m.registry

/-- The listeners of the given type whose callback is a closure of the component. -/
def ownListeners (type : JSString) (r : Registry) : List Listener :=
  r.filter fun l =>
    l.type == type &&
      match l.callback with
      | .handleClickOutside _ => true
      | .foreign _ => false

/-- No entry of the registry was put there by the component. -/
def NoOwnListeners (r : Registry) : Prop :=
  ∀ l ∈ r, ∀ run, l.callback ≠ .handleClickOutside run

/-! ## Shape of an ISO-8601 timestamp -/

/-- ASCII digit. -/
def isDigit (u : Nat) : Bool := 48 ≤ u && u ≤ 57

/-- One code unit against one pattern unit: `d` stands for a digit, every
other pattern unit for itself. -/
def unitMatches (pat u : Nat) : Bool :=
  if pat = 100 then isDigit u else u == pat

/-- A string against a pattern of the same length. -/
def matchesPattern : JSString → JSString → Bool
  | [], [] => true
  | p :: ps, u :: us => unitMatches p u && matchesPattern ps us
  | _, _ => false

/-- The form `YYYY-MM-DDTHH:mm:ss.sssZ`. -/
def hasIsoForm (s : JSString) : Bool :=
  matchesPattern (js "dddd-dd-ddTdd:dd:dd.dddZ") s

/-! ## A reference host: UTC rendering of time values -/

/-- Decimal digits of `n`, left-padded with zeros to `width`. -/
def pad (width n : Nat) : JSString :=
  let ds := (Nat.toDigits 10 n).map Char.toNat
  List.replicate (width - ds.length) 48 ++ ds

/-- Year, month and day of the month of a day number counted from
1970-01-01 (proleptic Gregorian calendar). -/
def civilFromDays (days : Int) : Int × Nat × Nat :=
  let z := days + 719468
  let era := z / 146097
  let doe := (z % 146097).toNat
  let yoe := (doe - doe / 1460 + doe / 36524 - doe / 146096) / 365
  let doy := doe - (365 * yoe + yoe / 4 - yoe / 100)
  let mp := (5 * doy + 2) / 153
  let d := doy - (153 * mp + 2) / 5 + 1
  let m := if mp < 10 then mp + 3 else mp - 9
  let y := (yoe : Int) + era * 400 + (if m ≤ 2 then 1 else 0)
  (y, m, d)

/-- Year as `toISOString` prints it: four digits, or a sign and six digits
outside 0..9999. -/
def isoYear (y : Int) : JSString :=
  if 0 ≤ y ∧ y ≤ 9999 then pad 4 y.toNat
  else if y < 0 then js "-" ++ pad 6 (-y).toNat
  else js "+" ++ pad 6 y.toNat

/-- `Date.prototype.toISOString()` of a time value in milliseconds. -/
def isoUTC (t : Int) : Except JSError JSString :=
  if t < -8640000000000000 ∨ 8640000000000000 < t then
    .error { message := js "Invalid time value" }
  else
    let ms := (t % 86400000).toNat
    let (y, m, d) := civilFromDays (t / 86400000)
    .ok (isoYear y ++ js "-" ++ pad 2 m ++ js "-" ++ pad 2 d ++ js "T" ++
      pad 2 (ms / 3600000) ++ js ":" ++ pad 2 (ms / 60000 % 60) ++ js ":" ++
      pad 2 (ms / 1000 % 60) ++ js "." ++ pad 3 (ms % 1000) ++ js "Z")

/-- Date in the `en-US` form `M/D/YYYY`, in UTC. -/
def dateEnUS (t : Int) : Except JSError JSString :=
  let (y, m, d) := civilFromDays (t / 86400000)
  .ok (pad 1 m ++ js "/" ++ pad 1 d ++ js "/" ++ isoYear y)

/-- Date in the `de-DE` form `D.M.YYYY`, in UTC. -/
def dateDeDE (t : Int) : Except JSError JSString :=
  let (y, m, d) := civilFromDays (t / 86400000)
  .ok (pad 1 d ++ js "." ++ pad 1 m ++ js "." ++ isoYear y)

/-- A host whose clock reads `t` at both `new Date()` calls, which prints
dates with `locale`, and whose host calls throw as `throwsAt` says. Its
upper-case table is the identity: it is used with ASCII strings only. -/
def referenceHost (t : Int) (locale : Int → Except JSError JSString)
    (throwsAt : HostStep → Option JSError) : Platform :=
  { upperTable := fun cp => [cp]
    now := fun _ => t
    toLocaleDateString := locale
    toISOString := isoUTC
    stringify := fun a => a.title
    objectURL := js "blob:ezymetrics"
    throwsAt := throwsAt }

/-- The component after its mount into a document with listeners `r` and `k`
re-runs of the effect. -/
def mountedAfter (r : Registry) : Nat → Mounted
  | 0 => mount r
  | k + 1 => rerun (mountedAfter r k)

/-! ## Nodes of the rendered tree (lines 168-224) -/

/-- The root `div` (line 168). -/
def rootDiv : Element := { node := 0, tag := js "div", ariaLabel := none }

/-- The `aside` that `asideRef` points to (line 170). -/
def asideElement : Element := { node := 1, tag := js "aside", ariaLabel := none }

/-- The `main` element (line 206). -/
def mainElement : Element := { node := 2, tag := js "main", ariaLabel := none }

/-- The three `div`s around the header buttons (lines 207-211). -/
def headerDivs : List Element :=
  [ { node := 5, tag := js "div", ariaLabel := none },
    { node := 4, tag := js "div", ariaLabel := none },
    { node := 3, tag := js "div", ariaLabel := none } ]

/-- The toggle button (lines 212-218). -/
def toggleButton : Element :=
  { node := 6, tag := js "button", ariaLabel := some (js "Toggle mobile menu") }

/-- The `svg` that the `Layout` icon renders inside the toggle button (line 217). -/
def toggleIcon : Element := { node := 7, tag := js "svg", ariaLabel := none }

/-- A pointer event whose target is the icon inside the toggle button. -/
def iconInToggle : EventTarget :=
  { target := .element toggleIcon
    ancestors := toggleButton :: (headerDivs ++ [mainElement, rootDiv]) }

/-- A pointer event whose target is the `main` element. -/
def onMain : EventTarget :=
  { target := .element mainElement, ancestors := [rootDiv] }

/-- A pointer event whose target is the document node. -/
def onDocument : EventTarget :=
  { target := .other 100, ancestors := [] }

/-! ## The specification's wording of the title -/

/-- The specification's "reportType with its first character upper-cased":
the first code unit through `toUpperCase`, the rest as it is. -/
def capitalizeFirst (tbl : Nat → List Nat) : JSString → JSString
  | [] => []
  | c :: cs => toUpperCase tbl [c] ++ cs

/-- Lower-case form of an ASCII letter, any other code unit unchanged. -/
def lowerUnit (u : Nat) : Nat :=
  if 65 ≤ u ∧ u ≤ 90 then u + 32 else u

/-- The specification's "equal up to letter case", for ASCII letters. -/
def equalUpToCase (a b : JSString) : Prop :=
  a.map lowerUnit = b.map lowerUnit

instance (a b : JSString) : Decidable (equalUpToCase a b) := by
  unfold equalUpToCase
  infer_instance

/-! # Theorems -/

/-! ## Running code that may throw -/

theorem Host.run_bind {α β : Type} (x : Host α) (f : α → Host β) (w : World) :
    (x >>= f).run w =
      match x.run w with
      | (.ok a, w1) => (f a).run w1
      | (.error e, w1) => (.error e, w1) := by
  simp only [ExceptT.run, bind, ExceptT.bind, ExceptT.mk, StateT.bind]
  rcases x w with ⟨r, w1⟩
  cases r <;> rfl

theorem hostValue_run {α : Type} (r : Except JSError α) (w : World) :
    (hostValue r).run w = (r, w) := by
  cases r <;> rfl

theorem hostStep_run (P : Platform) (st : HostStep) (w : World) :
    (hostStep P st).run w =
      match P.throwsAt st with
      | some e => (.error e, w)
      | none => (.ok (), w) := by
  unfold hostStep
  cases P.throwsAt st <;> rfl

theorem startSave_run (d : Download) (w : World) :
    (liftM (startSave d) : Host Unit).run w = (.ok (), { w with saved := w.saved ++ [d] }) :=
  rfl

theorem setShowReportModal_run (b : Bool) (w : World) :
    (liftM (setShowReportModal b) : Host Unit).run w =
      (.ok (), w.write (w.view.setShowReportModal b)) :=
  rfl

/-- The three ways the `try` block can end: a throw before `link.click()`,
a throw after it, or completion. -/
theorem tryBlock_run (P : Platform) (rt rp : JSString) (w : World) :
    (∃ e, (tryBlock P rt rp).run w = (.error e, w)) ∨
    (∃ date iso, P.toLocaleDateString (P.now 0) = .ok date ∧
      P.toISOString (P.now 1) = .ok iso ∧
      ((∃ e, (tryBlock P rt rp).run w =
          (.error e, { w with saved := w.saved ++ [savedFile P rt rp date iso] })) ∨
        (tryBlock P rt rp).run w =
          (.ok (), ({ w with saved := w.saved ++ [savedFile P rt rp date iso] }).write
            (w.view.setShowReportModal false)))) := by
  cases h0 : P.toLocaleDateString (P.now 0) with
  | error e => exact Or.inl ⟨e, by simp [tryBlock, Host.run_bind, hostValue_run, h0]⟩
  | ok date =>
  cases h1 : P.throwsAt .stringify with
  | some e =>
    exact Or.inl ⟨e, by simp [tryBlock, Host.run_bind, hostValue_run, hostStep_run, h0, h1]⟩
  | none =>
  cases h2 : P.throwsAt .newBlob with
  | some e =>
    exact Or.inl ⟨e, by simp [tryBlock, Host.run_bind, hostValue_run, hostStep_run, h0, h1, h2]⟩
  | none =>
  cases h3 : P.throwsAt .createObjectURL with
  | some e =>
    exact Or.inl ⟨e, by simp [tryBlock, Host.run_bind, hostValue_run, hostStep_run, h0, h1, h2, h3]⟩
  | none =>
  cases h4 : P.throwsAt .createElement with
  | some e =>
    exact Or.inl ⟨e, by simp [tryBlock, Host.run_bind, hostValue_run, hostStep_run, h0, h1, h2, h3, h4]⟩
  | none =>
  cases h5 : P.throwsAt .setHref with
  | some e =>
    exact Or.inl ⟨e, by simp [tryBlock, Host.run_bind, hostValue_run, hostStep_run, h0, h1, h2, h3, h4, h5]⟩
  | none =>
  cases h6 : P.toISOString (P.now 1) with
  | error e =>
    exact Or.inl ⟨e, by simp [tryBlock, Host.run_bind, hostValue_run, hostStep_run, h0, h1, h2, h3, h4, h5, h6]⟩
  | ok iso =>
  cases h7 : P.throwsAt .setAttribute with
  | some e =>
    exact Or.inl ⟨e, by simp [tryBlock, Host.run_bind, hostValue_run, hostStep_run, h0, h1, h2, h3, h4, h5, h6, h7]⟩
  | none =>
  cases h8 : P.throwsAt .appendChild with
  | some e =>
    exact Or.inl ⟨e, by simp [tryBlock, Host.run_bind, hostValue_run, hostStep_run, h0, h1, h2, h3, h4, h5, h6, h7, h8]⟩
  | none =>
  cases h9 : P.throwsAt .click with
  | some e =>
    exact Or.inl ⟨e, by simp [tryBlock, Host.run_bind, hostValue_run, hostStep_run, h0, h1, h2, h3, h4, h5, h6, h7, h8, h9]⟩
  | none =>
  refine Or.inr ⟨date, iso, rfl, rfl, ?_⟩
  cases h10 : P.throwsAt .remove with
  | some e =>
    exact Or.inl ⟨e, by
      simp [tryBlock, Host.run_bind, hostValue_run, hostStep_run, startSave_run, savedFile,
        h0, h1, h2, h3, h4, h5, h6, h7, h8, h9, h10]⟩
  | none =>
  cases h11 : P.throwsAt .revokeObjectURL with
  | some e =>
    exact Or.inl ⟨e, by
      simp [tryBlock, Host.run_bind, hostValue_run, hostStep_run, startSave_run, savedFile,
        h0, h1, h2, h3, h4, h5, h6, h7, h8, h9, h10, h11]⟩
  | none =>
    exact Or.inr (by
      simp [tryBlock, Host.run_bind, hostValue_run, hostStep_run, startSave_run,
        setShowReportModal_run, savedFile, World.write,
        h0, h1, h2, h3, h4, h5, h6, h7, h8, h9, h10, h11])


theorem generateReport_of_error (P : Platform) (w w2 : World) (e : JSError)
    (h : (tryBlock P w.view.reportType w.view.reportPeriod).run
        (w.write (w.view.setIsGeneratingReport true)) = (.error e, w2)) :
    (generateReport P w).2 =
      ({ w2 with console := w2.console ++ [(js "Error generating report:", e)] }).write
        (w2.view.setIsGeneratingReport false) := by
  have h2 : (tryBlock P w.view.reportType w.view.reportPeriod)
      (w.write (w.view.setIsGeneratingReport true)) = (.error e, w2) := h
  simp [generateReport, bind, StateT.bind, get, getThe, MonadStateOf.get, StateT.get, pure,
    StateT.pure, setIsGeneratingReport, modify, modifyGet, MonadStateOf.modifyGet,
    StateT.modifyGet, ExceptT.run, h2, consoleError]

theorem generateReport_of_ok (P : Platform) (w w2 : World)
    (h : (tryBlock P w.view.reportType w.view.reportPeriod).run
        (w.write (w.view.setIsGeneratingReport true)) = (.ok (), w2)) :
    (generateReport P w).2 = w2.write (w2.view.setIsGeneratingReport false) := by
  have h2 : (tryBlock P w.view.reportType w.view.reportPeriod)
      (w.write (w.view.setIsGeneratingReport true)) = (.ok (), w2) := h
  simp [generateReport, bind, StateT.bind, get, getThe, MonadStateOf.get, StateT.get, pure,
    StateT.pure, setIsGeneratingReport, modify, modifyGet, MonadStateOf.modifyGet,
    StateT.modifyGet, ExceptT.run, h2]

/-- The three outcomes of a call of `generateReport` from the rendered state
`s`: a throw before `link.click()`, a throw after it, or completion. -/
theorem runGenerateReport_cases (P : Platform) (s : ViewState) :
    (∃ e, (tryBlock P s.reportType s.reportPeriod).run
          ((World.start s).write (s.setIsGeneratingReport true)) =
          (.error e, (World.start s).write (s.setIsGeneratingReport true)) ∧
        runGenerateReport P s =
          { view := s.setIsGeneratingReport false
            trace := [s.setIsGeneratingReport true, s.setIsGeneratingReport false]
            console := [(js "Error generating report:", e)]
            saved := [] }) ∨
    (∃ date iso, P.toLocaleDateString (P.now 0) = .ok date ∧
      P.toISOString (P.now 1) = .ok iso ∧
      ((∃ e, (tryBlock P s.reportType s.reportPeriod).run
            ((World.start s).write (s.setIsGeneratingReport true)) =
            (.error e,
              { (World.start s).write (s.setIsGeneratingReport true) with
                saved := [savedFile P s.reportType s.reportPeriod date iso] }) ∧
          runGenerateReport P s =
            { view := s.setIsGeneratingReport false
              trace := [s.setIsGeneratingReport true, s.setIsGeneratingReport false]
              console := [(js "Error generating report:", e)]
              saved := [savedFile P s.reportType s.reportPeriod date iso] }) ∨
        ((tryBlock P s.reportType s.reportPeriod).run
            ((World.start s).write (s.setIsGeneratingReport true)) =
            (.ok (),
              ({ (World.start s).write (s.setIsGeneratingReport true) with
                saved := [savedFile P s.reportType s.reportPeriod date iso] }).write
                ((s.setIsGeneratingReport true).setShowReportModal false)) ∧
          runGenerateReport P s =
            { view := (s.setShowReportModal false).setIsGeneratingReport false
              trace := [s.setIsGeneratingReport true,
                (s.setIsGeneratingReport true).setShowReportModal false,
                (s.setShowReportModal false).setIsGeneratingReport false]
              console := []
              saved := [savedFile P s.reportType s.reportPeriod date iso] }))) := by
  rcases tryBlock_run P s.reportType s.reportPeriod
      ((World.start s).write (s.setIsGeneratingReport true)) with
    ⟨e, he⟩ | ⟨date, iso, hd, hi, ⟨e, he⟩ | hok⟩
  · refine Or.inl ⟨e, he, ?_⟩
    unfold runGenerateReport
    rw [generateReport_of_error P (World.start s) _ e he]
    simp [World.start, World.write, ViewState.setIsGeneratingReport]
  · refine Or.inr ⟨date, iso, hd, hi, Or.inl ⟨e, ?_, ?_⟩⟩
    · simpa [World.start, World.write] using he
    · unfold runGenerateReport
      rw [generateReport_of_error P (World.start s) _ e he]
      simp [World.start, World.write, ViewState.setIsGeneratingReport]
  · refine Or.inr ⟨date, iso, hd, hi, Or.inr ⟨?_, ?_⟩⟩
    · simpa [World.start, World.write] using hok
    · unfold runGenerateReport
      rw [generateReport_of_ok P (World.start s) _ hok]
      simp [World.start, World.write, ViewState.setIsGeneratingReport,
        ViewState.setShowReportModal]

/-- Every file saved by `generateReport` carries the serialised `reportData`
built from the report type and period of the rendered state. -/
theorem saved_is_savedFile (P : Platform) (s : ViewState) :
    ∀ d ∈ (runGenerateReport P s).saved,
      ∃ date iso, P.toLocaleDateString (P.now 0) = .ok date ∧
        P.toISOString (P.now 1) = .ok iso ∧
        d = savedFile P s.reportType s.reportPeriod date iso := by
  intro d hd
  rcases runGenerateReport_cases P s with
    ⟨e, _, hw⟩ | ⟨date, iso, hdate, hi, ⟨e, _, hw⟩ | ⟨_, hw⟩⟩
  · rw [hw] at hd
    simp at hd
  · rw [hw] at hd
    exact ⟨date, iso, hdate, hi, by simpa using hd⟩
  · rw [hw] at hd
    exact ⟨date, iso, hdate, hi, by simpa using hd⟩

/-! ## The data of the artifact -/

/-- C1: for every reportType and period (and every date text and upper-case
table) the `data` field of the artifact is `performanceData` when reportType
is "performance" and `leadsData` for every other reportType, in particular for
"leads" and "revenue"; the two lists are the five Jan..May samples and the
three leads of the source, in order; and the text of every file that
`generateReport` saves is the serialisation of that artifact. -/
theorem C1_data_selected_by_reportType (tbl : Nat → List Nat)
    (reportType reportPeriod date : JSString) :
    (reportData tbl reportType reportPeriod date).data =
        (if reportType = js "performance" then ReportRows.performance performanceData
          else ReportRows.leads leadsData) ∧
      (reportData tbl (js "performance") reportPeriod date).data =
        ReportRows.performance performanceData ∧
      (reportData tbl (js "leads") reportPeriod date).data = ReportRows.leads leadsData ∧
      (reportData tbl (js "revenue") reportPeriod date).data = ReportRows.leads leadsData ∧
      performanceData.map (fun r => (r.name, r.leads, r.conversions)) =
        [(js "Jan", 400, 240), (js "Feb", 300, 139), (js "Mar", 200, 980),
          (js "Apr", 278, 390), (js "May", 189, 480)] ∧
      leadsData.map (fun l => (l.id, l.name, l.email, l.status, l.value)) =
        [(1, js "John Doe", js "john@example.com", js "New", js "$1,200"),
          (2, js "Jane Smith", js "jane@example.com", js "Contacted", js "$3,400"),
          (3, js "Mike Johnson", js "mike@example.com", js "Qualified", js "$2,800")] ∧
      ∀ (P : Platform) (s : ViewState), ∀ d ∈ (runGenerateReport P s).saved,
        ∃ dateText, d.blob.text =
          P.stringify (reportData P.upperTable s.reportType s.reportPeriod dateText) := by
  refine ⟨rfl, ?_, ?_, ?_, ?_, ?_, ?_⟩
  rotate_right
  · intro P s d hd
    obtain ⟨dateText, iso, _, _, rfl⟩ := saved_is_savedFile P s d hd
    exact ⟨dateText, rfl⟩
  · simp [reportData, reportRows]
  · have h : js "leads" ≠ js "performance" := by decide
    simp [reportData, reportRows, h]
  · have h : js "revenue" ≠ js "performance" := by decide
    simp [reportData, reportRows, h]
  · decide
  · decide

/-! ## The title -/

theorem charAt_zero_append_slice (tbl : Nat → List Nat) (reportType : JSString) :
    toUpperCase tbl (charAt reportType 0) ++ slice reportType 1 =
      capitalizeFirst tbl reportType := by
  cases reportType with
  | nil => rfl
  | cons c cs => rfl

/-- C2: for every reportType, the empty string included, the title of the
artifact is "EzyMetrics", a space, reportType with its first character
upper-cased and the rest left as it is, then " Report"; performance, leads and
revenue give the three titles of the specification. -/
theorem C2_title_capitalizes_first (tbl : Nat → List Nat)
    (reportType reportPeriod date : JSString) :
    (reportData tbl reportType reportPeriod date).title =
        js "EzyMetrics" ++ js " " ++ capitalizeFirst tbl reportType ++ js " Report" ∧
      (reportData tbl (js "performance") reportPeriod date).title =
        js "EzyMetrics Performance Report" ∧
      (reportData tbl (js "leads") reportPeriod date).title = js "EzyMetrics Leads Report" ∧
      (reportData tbl (js "revenue") reportPeriod date).title =
        js "EzyMetrics Revenue Report" ∧
      (reportData tbl (js "") reportPeriod date).title = js "EzyMetrics  Report" := by
  refine ⟨?_, rfl, rfl, rfl, rfl⟩
  show reportTitle tbl reportType = _
  unfold reportTitle
  rw [charAt_zero_append_slice]
  have h : js "EzyMetrics " = js "EzyMetrics" ++ js " " := by decide
  rw [h]

/-- C3, as stated, fails: "PERFORMANCE" and "performance" are equal up to
letter case, yet for every upper-case table the first yields the title
"EzyMetrics PERFORMANCE Report", whose later letters are upper-case, and the
second "EzyMetrics Performance Report". -/
theorem C3_counterexample_later_letters_kept :
    equalUpToCase (js "PERFORMANCE") (js "performance") ∧
      (∀ tbl, reportTitle tbl (js "PERFORMANCE") = js "EzyMetrics PERFORMANCE Report") ∧
      (∀ tbl, reportTitle tbl (js "performance") = js "EzyMetrics Performance Report") ∧
      (∀ tbl, reportTitle tbl (js "PERFORMANCE") ≠ reportTitle tbl (js "performance")) := by
  refine ⟨by decide, fun _ => rfl, fun _ => rfl, fun tbl => ?_⟩
  have h1 : reportTitle tbl (js "PERFORMANCE") = js "EzyMetrics PERFORMANCE Report" := rfl
  have h2 : reportTitle tbl (js "performance") = js "EzyMetrics Performance Report" := rfl
  rw [h1, h2]
  decide

/-- C3, amended: the title upper-cases the first character of reportType and
keeps every later character as the input has it. Two reportType strings with
the same characters after the first, whose first characters have the same
upper-case form, produce the same title; two strings with the same first
character produce the same title only if their later characters are equal,
letter case included. -/
theorem C3_title_depends_on_later_case (tbl : Nat → List Nat) (c d : Nat) (rest : JSString)
    (h : toUpperCase tbl [c] = toUpperCase tbl [d]) :
    reportTitle tbl (c :: rest) = reportTitle tbl (d :: rest) ∧
      reportTitle tbl (c :: rest) =
        js "EzyMetrics " ++ (toUpperCase tbl [c] ++ rest) ++ js " Report" ∧
      ∀ other : JSString,
        reportTitle tbl (c :: rest) = reportTitle tbl (c :: other) → rest = other := by
  refine ⟨?_, rfl, fun other hEq => ?_⟩
  · show js "EzyMetrics " ++ (toUpperCase tbl [c] ++ rest) ++ js " Report" =
      js "EzyMetrics " ++ (toUpperCase tbl [d] ++ rest) ++ js " Report"
    rw [h]
  · have hEq2 : js "EzyMetrics " ++ (toUpperCase tbl [c] ++ rest) ++ js " Report" =
        js "EzyMetrics " ++ (toUpperCase tbl [c] ++ other) ++ js " Report" := hEq
    have h1 := List.append_cancel_right hEq2
    have h2 := List.append_cancel_left h1
    exact List.append_cancel_left h2

/-- C3, amended, at "performance" and "Performance". -/
theorem C3_title_depends_on_later_case_witness :
    toUpperCase (fun cp => [cp]) [112] = toUpperCase (fun cp => [cp]) [80] ∧
      reportTitle (fun cp => [cp]) (js "performance") =
        reportTitle (fun cp => [cp]) (js "Performance") :=
  ⟨by decide,
    (C3_title_depends_on_later_case (fun cp => [cp]) 112 80 (js "erformance") (by decide)).1⟩

/-! ## The download filename -/

theorem splitAux_until_sep (pre : JSString) (h : ∀ u ∈ pre, u ≠ 84) (rest cur : JSString) :
    splitAux [84] (pre ++ 84 :: rest) cur 0 =
      (cur.reverse ++ pre) :: splitAux [84] rest [] 0 := by
  induction pre generalizing cur with
  | nil => simp [splitAux, List.isPrefixOf]
  | cons u pre ih =>
    have hu : u ≠ 84 := h u (List.mem_cons_self _ _)
    have hu2 : ¬ (84 = u) := fun e => hu e.symm
    have hpre : ∀ v ∈ pre, v ≠ 84 := fun v hv => h v (List.mem_cons_of_mem _ hv)
    simp [splitAux, List.isPrefixOf, hu2, ih hpre]

theorem matchesPattern_append (p q s : JSString) (h : matchesPattern (p ++ q) s = true) :
    matchesPattern p (s.take p.length) = true ∧ matchesPattern q (s.drop p.length) = true := by
  induction p generalizing s with
  | nil => simpa [matchesPattern] using h
  | cons a p ih =>
    cases s with
    | nil => simp [matchesPattern] at h
    | cons u us =>
      simp only [List.cons_append, matchesPattern, Bool.and_eq_true] at h
      have := ih us h.2
      simp [matchesPattern, h.1, this.1, this.2]

theorem matchesPattern_length (p s : JSString) (h : matchesPattern p s = true) :
    s.length = p.length := by
  induction p generalizing s with
  | nil => cases s <;> simp_all [matchesPattern]
  | cons a p ih =>
    cases s with
    | nil => simp [matchesPattern] at h
    | cons u us =>
      simp only [matchesPattern, Bool.and_eq_true] at h
      simp [ih us h.2]

theorem matchesPattern_no_sep (p s : JSString) (hp : ∀ q ∈ p, q ≠ 84)
    (h : matchesPattern p s = true) : ∀ u ∈ s, u ≠ 84 := by
  induction p generalizing s with
  | nil => cases s <;> simp_all [matchesPattern]
  | cons a p ih =>
    cases s with
    | nil => simp
    | cons u us =>
      simp only [matchesPattern, Bool.and_eq_true] at h
      intro v hv
      rcases List.mem_cons.1 hv with rfl | hv
      · have ha : a ≠ 84 := hp a (List.mem_cons_self _ _)
        have hm := h.1
        unfold unitMatches isDigit at hm
        split at hm
        · simp at hm; omega
        · simp at hm; omega
      · exact ih us (fun q hq => hp q (List.mem_cons_of_mem _ hq)) h.2 v hv

theorem matchesPattern_sep_head (q s : JSString) (h : matchesPattern (84 :: q) s = true) :
    ∃ rest, s = 84 :: rest := by
  cases s with
  | nil => simp [matchesPattern] at h
  | cons u us =>
    simp only [matchesPattern, Bool.and_eq_true] at h
    have hm := h.1
    simp [unitMatches] at hm
    exact ⟨us, by rw [hm]⟩

/-- The text before the first "T" of a string of the ISO form is its first ten
code units, of the form `YYYY-MM-DD`. -/
theorem first_split_iso (iso : JSString) (h : hasIsoForm iso = true) :
    first (split iso (js "T")) = iso.take 10 ∧
      matchesPattern (js "dddd-dd-dd") (iso.take 10) = true ∧
      (∀ u ∈ iso.take 10, u ≠ 84) ∧
      ∃ rest, iso = iso.take 10 ++ js "T" ++ rest := by
  have hpat : js "dddd-dd-ddTdd:dd:dd.dddZ" = js "dddd-dd-dd" ++ 84 :: js "dd:dd:dd.dddZ" := by
    decide
  have hlen : (js "dddd-dd-dd").length = 10 := by decide
  have hT : js "T" = [84] := by decide
  unfold hasIsoForm at h
  rw [hpat] at h
  have h2 := matchesPattern_append _ _ _ h
  rw [hlen] at h2
  obtain ⟨rest, hrest⟩ := matchesPattern_sep_head _ _ h2.2
  have hno : ∀ u ∈ iso.take 10, u ≠ 84 :=
    matchesPattern_no_sep _ _ (by decide) h2.1
  have hiso : iso = iso.take 10 ++ 84 :: rest := by
    rw [← hrest, List.take_append_drop]
  refine ⟨?_, h2.1, hno, rest, ?_⟩
  · have := splitAux_until_sep (iso.take 10) hno rest []
    rw [← hiso] at this
    rw [hT, split, this]
    simp [first]
  · rw [hT]; simpa using hiso

/-- C4: when the ISO rendering `iso` of the timestamp read for the filename
has the form `YYYY-MM-DDTHH:mm:ss.sssZ`, every file saved by `generateReport`
is named "ezymetrics-" ++ reportType ++ "-report-" ++ D ++ ".pdf", where D is
the first ten code units of `iso`: it has the form `YYYY-MM-DD`, contains no
"T" and is followed in `iso` by "T". The name is the same whatever function
renders the locale date of the artifact. -/
theorem C4_filename_iso_date (P : Platform) (s : ViewState) (iso : JSString)
    (hiso : P.toISOString (P.now 1) = .ok iso) (hform : hasIsoForm iso = true) :
    (∀ d ∈ (runGenerateReport P s).saved,
        d.filename =
          js "ezymetrics-" ++ s.reportType ++ js "-report-" ++ iso.take 10 ++ js ".pdf") ∧
      (∀ locale, ∀ d ∈ (runGenerateReport { P with toLocaleDateString := locale } s).saved,
        d.filename =
          js "ezymetrics-" ++ s.reportType ++ js "-report-" ++ iso.take 10 ++ js ".pdf") ∧
      (iso.take 10).length = 10 ∧
      matchesPattern (js "dddd-dd-dd") (iso.take 10) = true ∧
      (∀ u ∈ iso.take 10, u ≠ 84) ∧
      ∃ rest, iso = iso.take 10 ++ js "T" ++ rest := by
  obtain ⟨hfirst, hpat, hno, hrest⟩ := first_split_iso iso hform
  have key : ∀ Q : Platform, Q.toISOString (Q.now 1) = .ok iso →
      ∀ d ∈ (runGenerateReport Q s).saved,
        d.filename =
          js "ezymetrics-" ++ s.reportType ++ js "-report-" ++ iso.take 10 ++ js ".pdf" := by
    intro Q hQ d hd
    rcases runGenerateReport_cases Q s with
      ⟨e, _, hw⟩ | ⟨date, iso2, _, hi, ⟨e, _, hw⟩ | ⟨_, hw⟩⟩
    · rw [hw] at hd
      simp at hd
    · rw [hw] at hd
      rw [hQ] at hi
      cases hi
      simp only [List.mem_singleton] at hd
      rw [hd]
      simp [savedFile, downloadName, hfirst]
    · rw [hw] at hd
      rw [hQ] at hi
      cases hi
      simp only [List.mem_singleton] at hd
      rw [hd]
      simp [savedFile, downloadName, hfirst]
  refine ⟨key P hiso, fun locale => key _ hiso, ?_, hpat, hno, hrest⟩
  have := matchesPattern_length _ _ hpat
  rw [this]
  decide

/-- C4 at 2024-01-15T10:30:00.123Z, for a report of the initial state printed
with a German and with a US locale date. -/
theorem C4_filename_iso_date_witness :
    isoUTC 1705314600123 = .ok (js "2024-01-15T10:30:00.123Z") ∧
      hasIsoForm (js "2024-01-15T10:30:00.123Z") = true ∧
      (runGenerateReport (referenceHost 1705314600123 dateEnUS fun _ => none)
        initialState).saved.map (fun d => d.filename) =
        [js "ezymetrics-performance-report-2024-01-15.pdf"] ∧
      (runGenerateReport (referenceHost 1705314600123 dateDeDE fun _ => none)
        initialState).saved.map (fun d => d.filename) =
        [js "ezymetrics-performance-report-2024-01-15.pdf"] ∧
      ∀ d ∈ (runGenerateReport (referenceHost 1705314600123 dateDeDE fun _ => none)
          initialState).saved,
        d.filename = js "ezymetrics-performance-report-2024-01-15.pdf" :=
  ⟨rfl, by decide, by decide, by decide,
    (C4_filename_iso_date (referenceHost 1705314600123 dateEnUS fun _ => none) initialState
      (js "2024-01-15T10:30:00.123Z") rfl (by decide)).2.1 dateDeDE⟩

/-! ## The in-progress flag -/

theorem runGenerateReport_idle (P : Platform) (s : ViewState) :
    (runGenerateReport P s).view.isGeneratingReport = false := by
  rcases runGenerateReport_cases P s with
    ⟨e, _, hw⟩ | ⟨date, iso, _, _, ⟨e, _, hw⟩ | ⟨_, hw⟩⟩ <;>
  · rw [hw]
    rfl

theorem afterPointerDown_cases (asideRef : Option Element) (t : EventTarget) (s : ViewState) :
    afterPointerDown asideRef t s = s ∨
      afterPointerDown asideRef t s = s.setIsMobileMenuOpen false := by
  unfold afterPointerDown handleClickOutside
  by_cases ho : s.isMobileMenuOpen = true
  · cases asideRef with
    | none => simp [ho]
    | some aside =>
      by_cases hc : contains aside t = true
      · simp [ho, hc]
      · rcases hk : closest t with e | (_ | x) <;> simp [ho, hc, hk]
  · simp [ho]

/-- Between two events the in-progress flag is idle. -/
theorem reachable_idle {s : ViewState} (h : Reachable s) : s.isGeneratingReport = false := by
  induction h with
  | init => rfl
  | @step s e _ ih =>
    cases e with
    | toggle => exact ih
    | pointerDown asideRef t =>
      show (afterPointerDown asideRef t s).isGeneratingReport = false
      rcases afterPointerDown_cases asideRef t s with h | h <;>
      · rw [h]
        exact ih
    | navLink i =>
      have h4 : ∀ j : Fin 4, ((navLinks.get ⟨j.1, j.2⟩).click s).isGeneratingReport =
          s.isGeneratingReport := by
        intro j
        fin_cases j <;> rfl
      exact (h4 i).trans ih
    | closeX => exact ih
    | cancel => exact ih
    | changeReportType v => exact ih
    | changeReportPeriod v => exact ih
    | download P => exact runGenerateReport_idle P _

/-- C5: from every rendered state and for every host, `generateReport` first
writes the in-progress flag true; the `try` block starts with the flag true
and ends, by returning or by throwing, with the flag still true; every state
written during the call except the last has the flag true, and the last one,
which is the state after the call, has it false. In every state the component
can be in when the call starts the flag is false. -/
theorem C5_flag_true_during_call (P : Platform) (s : ViewState) :
    (∃ r w2, (tryBlock P s.reportType s.reportPeriod).run
          ((World.start s).write (s.setIsGeneratingReport true)) = (r, w2) ∧
        ((World.start s).write (s.setIsGeneratingReport true)).view.isGeneratingReport = true ∧
        w2.view.isGeneratingReport = true ∧
        (runGenerateReport P s).view = w2.view.setIsGeneratingReport false) ∧
      (runGenerateReport P s).trace.head? = some (s.setIsGeneratingReport true) ∧
      (∀ v ∈ (runGenerateReport P s).trace.dropLast, v.isGeneratingReport = true) ∧
      (runGenerateReport P s).trace.getLast? = some (runGenerateReport P s).view ∧
      (runGenerateReport P s).view.isGeneratingReport = false ∧
      (Reachable s → s.isGeneratingReport = false) := by
  refine ⟨?_, ?_, ?_, ?_, runGenerateReport_idle P s, reachable_idle⟩
  · rcases runGenerateReport_cases P s with
      ⟨e, ht, hw⟩ | ⟨date, iso, _, _, ⟨e, ht, hw⟩ | ⟨ht, hw⟩⟩ <;>
    · refine ⟨_, _, ht, rfl, rfl, ?_⟩
      rw [hw]
      rfl
  · rcases runGenerateReport_cases P s with
      ⟨e, _, hw⟩ | ⟨date, iso, _, _, ⟨e, _, hw⟩ | ⟨_, hw⟩⟩ <;>
    · rw [hw]
      rfl
  · rcases runGenerateReport_cases P s with
      ⟨e, _, hw⟩ | ⟨date, iso, _, _, ⟨e, _, hw⟩ | ⟨_, hw⟩⟩ <;>
    · rw [hw]
      intro v hv
      simp [List.dropLast] at hv
      first
        | (subst hv; rfl)
        | (rcases hv with rfl | rfl <;> rfl)
  · rcases runGenerateReport_cases P s with
      ⟨e, _, hw⟩ | ⟨date, iso, _, _, ⟨e, _, hw⟩ | ⟨_, hw⟩⟩ <;>
    · rw [hw]
      rfl

/-- C5 at the state reached by opening the report modal, for a host on which
nothing throws: the flag is false before the call and reads true, true, false
in the states the call writes. -/
theorem C5_flag_true_during_call_witness :
    Reachable (Event.apply initialState (.navLink 3)) ∧
      (Event.apply initialState (.navLink 3)).isGeneratingReport = false ∧
      (runGenerateReport (referenceHost 1705314600123 dateEnUS fun _ => none)
        (Event.apply initialState (.navLink 3))).trace.map (fun v => v.isGeneratingReport) =
        [true, true, false] :=
  ⟨Reachable.step _ Reachable.init,
    (C5_flag_true_during_call (referenceHost 1705314600123 dateEnUS fun _ => none)
      (Event.apply initialState (.navLink 3))).2.2.2.2.2 (Reachable.step _ Reachable.init),
    by decide⟩

/-! ## Failure of the build or of the download -/

/-- C6: when the report modal is open and a step of the `try` block throws,
`generateReport` returns normally, the exception ends in the one
`console.error` call, and the state after the call is the starting state with
the in-progress flag idle: the modal is still open, and report type, period,
active section and mobile-menu flag are what they were. -/
theorem C6_failure_resets_flag_only (P : Platform) (s : ViewState) (e : JSError) (w2 : World)
    (hopen : s.showReportModal = true)
    (hthrow : (tryBlock P s.reportType s.reportPeriod).run
      ((World.start s).write (s.setIsGeneratingReport true)) = (.error e, w2)) :
    (generateReport P (World.start s)).1 = () ∧
      (runGenerateReport P s).console = [(js "Error generating report:", e)] ∧
      (runGenerateReport P s).view = { s with isGeneratingReport := false } ∧
      (runGenerateReport P s).view.showReportModal = true ∧
      (runGenerateReport P s).view.reportType = s.reportType ∧
      (runGenerateReport P s).view.reportPeriod = s.reportPeriod ∧
      (runGenerateReport P s).view.activeSection = s.activeSection ∧
      (runGenerateReport P s).view.isMobileMenuOpen = s.isMobileMenuOpen ∧
      (runGenerateReport P s).view.isGeneratingReport = false := by
  have hview : (runGenerateReport P s).console = [(js "Error generating report:", e)] ∧
      (runGenerateReport P s).view = { s with isGeneratingReport := false } := by
    rcases runGenerateReport_cases P s with
      ⟨e1, ht, hw⟩ | ⟨date, iso, _, _, ⟨e1, ht, hw⟩ | ⟨ht, hw⟩⟩
    · rw [hthrow] at ht
      cases ht
      rw [hw]
      exact ⟨rfl, rfl⟩
    · rw [hthrow] at ht
      cases ht
      rw [hw]
      exact ⟨rfl, rfl⟩
    · rw [hthrow] at ht
      cases ht
  obtain ⟨hc, hv⟩ := hview
  refine ⟨rfl, hc, hv, ?_, ?_, ?_, ?_, ?_, ?_⟩ <;> rw [hv]
  exact hopen

/-- C6 with the modal open and `link.click()` throwing. -/
theorem C6_failure_resets_flag_only_witness :
    (runGenerateReport
        (referenceHost 0 dateEnUS fun st =>
          if st = HostStep.click then some { message := js "click failed" } else none)
        { initialState with showReportModal := true }).view =
      { initialState with showReportModal := true } :=
  (C6_failure_resets_flag_only
    (referenceHost 0 dateEnUS fun st =>
      if st = HostStep.click then some { message := js "click failed" } else none)
    { initialState with showReportModal := true } { message := js "click failed" }
    ((World.start { initialState with showReportModal := true }).write
      (ViewState.setIsGeneratingReport { initialState with showReportModal := true } true))
    rfl rfl).2.2.1

/-! ## Outside interaction -/

/-- C7, as stated, fails: with the menu open, a pointer-down on the icon
inside the toggle button has a target that is not inside the navigation region
and is not the toggle button, yet the handler leaves the menu open. -/
theorem C7_counterexample_icon_in_toggle :
    ViewState.isMobileMenuOpen { initialState with isMobileMenuOpen := true } = true ∧
      contains asideElement iconInToggle = false ∧
      iconInToggle.target = TargetNode.element toggleIcon ∧
      toggleIcon ≠ toggleButton ∧
      matchesToggleSelector toggleIcon = false ∧
      handleClickOutside (some asideElement) iconInToggle
          { initialState with isMobileMenuOpen := true } =
        .ok { initialState with isMobileMenuOpen := true } ∧
      afterPointerDown (some asideElement) iconInToggle
          { initialState with isMobileMenuOpen := true } =
        { initialState with isMobileMenuOpen := true } := by
  refine ⟨by decide, by decide, rfl, by decide, by decide, rfl, by decide⟩

/-- With the menu open, a pointer-down whose target is the document node makes
the listener throw; the menu stays open. With the menu closed the call of
`closest` is not reached. -/
theorem handleClickOutside_on_document :
    handleClickOutside (some asideElement) onDocument
        { initialState with isMobileMenuOpen := true } =
      .error { message := js "event.target.closest is not a function" } ∧
      afterPointerDown (some asideElement) onDocument
          { initialState with isMobileMenuOpen := true } =
        { initialState with isMobileMenuOpen := true } ∧
      handleClickOutside (some asideElement) onDocument initialState = .ok initialState := by
  refine ⟨rfl, by decide, rfl⟩

/-- C7, amended: while the navigation region exists, for every view state and
every target that is an element, the handler closes the mobile menu if and
only if the menu is open, the target is not inside the navigation region, and
neither the target nor any of its ancestors is the toggle button; in every
other case it changes nothing; it does not throw, and it never changes a field
other than the mobile-menu flag. -/
theorem C7_closes_iff_outside_nav_and_toggle (aside e : Element) (ancestors : List Element)
    (s : ViewState) :
    ((s.isMobileMenuOpen = true ∧
          ∃ s2, handleClickOutside (some aside) { target := .element e, ancestors := ancestors } s =
              .ok s2 ∧ s2.isMobileMenuOpen = false) ↔
        (s.isMobileMenuOpen = true ∧
          contains aside { target := .element e, ancestors := ancestors } = false ∧
          ∀ x ∈ e :: ancestors, matchesToggleSelector x = false)) ∧
      ((s.isMobileMenuOpen = true ∧
          contains aside { target := .element e, ancestors := ancestors } = false ∧
          ∀ x ∈ e :: ancestors, matchesToggleSelector x = false) →
        handleClickOutside (some aside) { target := .element e, ancestors := ancestors } s =
          .ok (s.setIsMobileMenuOpen false)) ∧
      (¬ (s.isMobileMenuOpen = true ∧
          contains aside { target := .element e, ancestors := ancestors } = false ∧
          ∀ x ∈ e :: ancestors, matchesToggleSelector x = false) →
        handleClickOutside (some aside) { target := .element e, ancestors := ancestors } s =
          .ok s) ∧
      (∃ s2, handleClickOutside (some aside) { target := .element e, ancestors := ancestors } s =
          .ok s2 ∧
        afterPointerDown (some aside) { target := .element e, ancestors := ancestors } s = s2 ∧
        s2 = { s with isMobileMenuOpen := s2.isMobileMenuOpen }) := by
  have hnone : (e :: ancestors).find? matchesToggleSelector = none ↔
      ∀ x ∈ e :: ancestors, matchesToggleSelector x = false := by
    rw [List.find?_eq_none]
    simp
  rw [← hnone]
  unfold afterPointerDown handleClickOutside closest
  obtain ⟨isOpen, section_, modal, rt, rp, busy⟩ := s
  simp only
  cases isOpen <;>
  cases hc : contains aside { target := .element e, ancestors := ancestors } <;>
  cases hk : (e :: ancestors).find? matchesToggleSelector <;>
  simp [ViewState.setIsMobileMenuOpen]

/-- C7, amended, for a pointer-down on `main` with the menu open: the menu
closes and the modal flag stays as it was. -/
theorem C7_closes_iff_outside_nav_and_toggle_witness :
    handleClickOutside (some asideElement) onMain
        { initialState with isMobileMenuOpen := true, showReportModal := true } =
      .ok { initialState with isMobileMenuOpen := false, showReportModal := true } :=
  (C7_closes_iff_outside_nav_and_toggle asideElement mainElement [rootDiv]
    { initialState with isMobileMenuOpen := true, showReportModal := true }).2.1
    (by decide)

/-! ## Closing the modal -/

/-- C8: in every state the component can be in, closing the report modal
with the X button or with the Cancel button yields a state in which the modal
is hidden and the in-progress flag is idle. Both handlers write the modal cell
only, so every other field keeps its value, and the flag, which only
`generateReport` writes and leaves idle, is idle before and after. -/
theorem C8_close_hides_modal_flag_idle (s : ViewState) (h : Reachable s) :
    (modalOnClose s).showReportModal = false ∧
      (modalOnClose s).isGeneratingReport = false ∧
      (cancelOnClick s).showReportModal = false ∧
      (cancelOnClick s).isGeneratingReport = false ∧
      modalOnClose s = { s with showReportModal := false } ∧
      cancelOnClick s = { s with showReportModal := false } ∧
      Reachable (modalOnClose s) ∧
      Reachable (cancelOnClick s) :=
  ⟨rfl, (reachable_idle h : s.isGeneratingReport = false), rfl,
    (reachable_idle h : s.isGeneratingReport = false), rfl, rfl,
    Reachable.step Event.closeX h, Reachable.step Event.cancel h⟩

/-- C8 at the state reached by opening the modal and pressing Download on a
host where `link.click()` throws: the modal is open, and closing it gives the
initial state. -/
theorem C8_close_hides_modal_flag_idle_witness :
    Reachable
        (Event.apply (Event.apply initialState (.navLink 3))
          (.download (referenceHost 0 dateEnUS fun st =>
            if st = HostStep.click then some { message := js "click failed" } else none))) ∧
      (Event.apply (Event.apply initialState (.navLink 3))
          (.download (referenceHost 0 dateEnUS fun st =>
            if st = HostStep.click then some { message := js "click failed" } else none))
        ).showReportModal = true ∧
      (modalOnClose
          (Event.apply (Event.apply initialState (.navLink 3))
            (.download (referenceHost 0 dateEnUS fun st =>
              if st = HostStep.click then some { message := js "click failed" } else none)))
        ).isGeneratingReport = false ∧
      modalOnClose
          (Event.apply (Event.apply initialState (.navLink 3))
            (.download (referenceHost 0 dateEnUS fun st =>
              if st = HostStep.click then some { message := js "click failed" } else none))) =
        initialState :=
  ⟨Reachable.step _ (Reachable.step _ Reachable.init), by decide,
    (C8_close_hides_modal_flag_idle _
      (Reachable.step _ (Reachable.step _ Reachable.init))).2.1,
    by decide⟩

/-! ## Sections -/

theorem runGenerateReport_activeSection (P : Platform) (s : ViewState) :
    (runGenerateReport P s).view.activeSection = s.activeSection := by
  rcases runGenerateReport_cases P s with
    ⟨e, _, hw⟩ | ⟨date, iso, _, _, ⟨e, _, hw⟩ | ⟨_, hw⟩⟩ <;>
  · rw [hw]
    rfl

/-- The active section is one of the three ids that a link without a handler
of its own carries. -/
theorem reachable_activeSection {s : ViewState} (h : Reachable s) :
    s.activeSection ∈ [js "dashboard", js "leads", js "analytics"] := by
  induction h with
  | init => decide
  | @step s e _ ih =>
    cases e with
    | toggle => exact ih
    | pointerDown asideRef t =>
      show (afterPointerDown asideRef t s).activeSection ∈ _
      rcases afterPointerDown_cases asideRef t s with h | h <;>
      · rw [h]
        exact ih
    | navLink i =>
      fin_cases i
      · show js "dashboard" ∈ _
        decide
      · show js "leads" ∈ _
        decide
      · show js "analytics" ∈ _
        decide
      · exact ih
    | closeX => exact ih
    | cancel => exact ih
    | changeReportType v => exact ih
    | changeReportPeriod v => exact ih
    | download P =>
      show (runGenerateReport P s).view.activeSection ∈ _
      rw [runGenerateReport_activeSection]
      exact ih

/-- C9: for every view state, selecting dashboard, leads or analytics sets the
active section to that id and changes nothing else; selecting "reports" opens
the report modal and changes nothing else, the active section included; a
click on the i-th navigation link is the selection of its id; and in no state
reachable from the initial state is the active section "reports". -/
theorem C9_sections_and_reports_link (s : ViewState) :
    selectSection (js "dashboard") s = { s with activeSection := js "dashboard" } ∧
      selectSection (js "leads") s = { s with activeSection := js "leads" } ∧
      selectSection (js "analytics") s = { s with activeSection := js "analytics" } ∧
      selectSection (js "reports") s = { s with showReportModal := true } ∧
      (selectSection (js "reports") s).activeSection = s.activeSection ∧
      (∀ i : Fin 4,
        Event.apply s (.navLink i) = selectSection (navLinks.get ⟨i.1, i.2⟩).id s) ∧
      (Reachable s → s.activeSection ≠ js "reports") := by
  refine ⟨rfl, rfl, rfl, rfl, rfl, ?_, ?_⟩
  · intro i
    fin_cases i <;> rfl
  · intro h
    have hno : js "reports" ∉ [js "dashboard", js "leads", js "analytics"] := by decide
    intro heq
    exact hno (heq ▸ reachable_activeSection h)

/-- C9 at the state reached by clicking Leads, then Reports. -/
theorem C9_sections_and_reports_link_witness :
    Reachable (Event.apply (Event.apply initialState (.navLink 1)) (.navLink 3)) ∧
      (Event.apply (Event.apply initialState (.navLink 1)) (.navLink 3)).activeSection =
        js "leads" ∧
      (Event.apply (Event.apply initialState (.navLink 1)) (.navLink 3)).activeSection ≠
        js "reports" :=
  ⟨Reachable.step _ (Reachable.step _ Reachable.init), by decide,
    (C9_sections_and_reports_link
      (Event.apply (Event.apply initialState (.navLink 1)) (.navLink 3))).2.2.2.2.2.2
      (Reachable.step _ (Reachable.step _ Reachable.init))⟩

/-! ## Listener registration -/

theorem not_mem_of_noOwn {r : Registry} (h : NoOwnListeners r) (type : JSString) (run : Nat) :
    ({ type := type, callback := .handleClickOutside run } : Listener) ∉ r :=
  fun hm => h _ hm run rfl

theorem effect_of_noOwn {r : Registry} (h : NoOwnListeners r) (run : Nat) :
    effect run r =
      r ++ [{ type := js "mousedown", callback := .handleClickOutside run },
        { type := js "touchstart", callback := .handleClickOutside run }] := by
  have h1 := not_mem_of_noOwn h (js "mousedown") run
  have h2 := not_mem_of_noOwn h (js "touchstart") run
  have hne : js "touchstart" ≠ js "mousedown" := by decide
  simp [effect, addEventListener, h1, h2, hne]

theorem cleanup_of_noOwn {r : Registry} (h : NoOwnListeners r) (run : Nat) :
    cleanup run
        (r ++ [{ type := js "mousedown", callback := .handleClickOutside run },
          { type := js "touchstart", callback := .handleClickOutside run }]) = r := by
  have h1 := not_mem_of_noOwn h (js "mousedown") run
  have h2 := not_mem_of_noOwn h (js "touchstart") run
  unfold cleanup removeEventListener
  rw [List.erase_append_right _ h1]
  simp only [List.erase_cons_head]
  rw [List.erase_append_right _ h2]
  simp

theorem mountedAfter_spec {r : Registry} (h : NoOwnListeners r) (k : Nat) :
    (mountedAfter r k).run = k ∧
      (mountedAfter r k).registry =
        r ++ [{ type := js "mousedown", callback := .handleClickOutside k },
          { type := js "touchstart", callback := .handleClickOutside k }] := by
  induction k with
  | zero => exact ⟨rfl, effect_of_noOwn h 0⟩
  | succ k ih =>
    refine ⟨?_, ?_⟩
    · show (mountedAfter r k).run + 1 = k + 1
      rw [ih.1]
    · show effect ((mountedAfter r k).run + 1)
        (cleanup (mountedAfter r k).run (mountedAfter r k).registry) = _
      rw [ih.1, ih.2, cleanup_of_noOwn h, effect_of_noOwn h]

theorem ownListeners_of_noOwn {r : Registry} (h : NoOwnListeners r) (type : JSString) :
    ownListeners type r = [] := by
  unfold ownListeners
  rw [List.filter_eq_nil_iff]
  intro l hl
  have := h l hl
  cases hc : l.callback with
  | foreign n => simp
  | handleClickOutside run => exact absurd hc (this run)

/-- C10: in a document whose listeners were not put there by the component,
after the mount and after each of any number of effect re-runs (the pending
cleanup first, then the effect) the document holds exactly one mousedown and
exactly one touchstart listener of the component, the closure of the latest
effect run; after the unmount that follows, the listener list is what it was
before the mount. -/
theorem C10_one_listener_each_no_leak (r : Registry) (h : NoOwnListeners r) (n : Nat) :
    (∀ k ≤ n,
        ownListeners (js "mousedown") (mountedAfter r k).registry =
            [{ type := js "mousedown", callback := .handleClickOutside k }] ∧
          ownListeners (js "touchstart") (mountedAfter r k).registry =
            [{ type := js "touchstart", callback := .handleClickOutside k }]) ∧
      unmount (mountedAfter r n) = r ∧
      NoOwnListeners (unmount (mountedAfter r n)) := by
  have hne : js "touchstart" ≠ js "mousedown" := by decide
  refine ⟨fun k _ => ?_, ?_, ?_⟩
  · rw [(mountedAfter_spec h k).2]
    unfold ownListeners
    rw [List.filter_append, List.filter_append]
    have h1 := ownListeners_of_noOwn h (js "mousedown")
    have h2 := ownListeners_of_noOwn h (js "touchstart")
    unfold ownListeners at h1 h2
    rw [h1, h2]
    simp [hne, hne.symm]
  · unfold unmount
    rw [(mountedAfter_spec h n).1, (mountedAfter_spec h n).2, cleanup_of_noOwn h]
  · unfold unmount
    rw [(mountedAfter_spec h n).1, (mountedAfter_spec h n).2, cleanup_of_noOwn h]
    exact h

/-- C10 for a document that already holds a foreign mousedown listener, with
three re-runs of the effect. -/
theorem C10_one_listener_each_no_leak_witness :
    NoOwnListeners [{ type := js "mousedown", callback := .foreign 0 }] ∧
      (mountedAfter [{ type := js "mousedown", callback := .foreign 0 }] 2).registry =
        [{ type := js "mousedown", callback := .foreign 0 },
          { type := js "mousedown", callback := .handleClickOutside 2 },
          { type := js "touchstart", callback := .handleClickOutside 2 }] ∧
      unmount (mountedAfter [{ type := js "mousedown", callback := .foreign 0 }] 3) =
        [{ type := js "mousedown", callback := .foreign 0 }] :=
  ⟨by intro l hl run; simp at hl; rw [hl]; simp,
    by decide,
    (C10_one_listener_each_no_leak [{ type := js "mousedown", callback := .foreign 0 }]
      (by intro l hl run; simp at hl; rw [hl]; simp) 3).2.1⟩

end EzyMetrics
